import Mathlib

/-!
# Verification of the elcaBonsai extraction pipeline

Shallow embedding of the core numeric parsing, XML cross-referencing,
HTML scraping and library-building code of the elcaBonsai repository,
together with proofs settling the frozen specification claims.

Numbers are modelled as exact rationals (`ℚ`): the Python code computes
with IEEE doubles, but every value the claims mention is a short decimal
literal for which the rational model coincides with the intended value.
Non-finite float literals ("inf"/"nan"), which no claim touches, are
outside the rational model and are treated as parse failures.

To keep concrete evaluation tractable, the model of Python `float(str)`
is split in two stages: `pyFloatParse?` does all the string work and
returns the parsed decimal literal as structured integer data, and
`litVal` interprets that data as a rational; `pyFloat? = litVal ∘
pyFloatParse?` is the function the embedded code uses.
-/

namespace ElcaBonsai

/-! ## Model of Python `float(str)` parsing

`pyFloat?` models the successful/raising behaviour of Python's builtin
`float` applied to a string: surrounding whitespace is ignored, an
optional sign is followed by a decimal mantissa (digits, optionally with
a single decimal point, at least one digit overall) and an optional
exponent part; anything else raises `ValueError`, modelled as `none`. -/

/-- A successfully parsed decimal float literal:
`(-1)^neg * (intPart + fracPart / 10^fracLen) * 10^exp`. -/
structure PyFloatLit where
  neg : Bool
  intPart : Nat
  fracPart : Nat
  fracLen : Nat
  exp : Int
deriving Repr, DecidableEq

/-- `10 ^ e` on rationals for an integer exponent. -/
def qpow10 (e : Int) : ℚ :=
  if 0 ≤ e then (10 : ℚ) ^ e.toNat else 1 / (10 : ℚ) ^ (-e).toNat

/-- Rational value denoted by a parsed float literal. -/
def litVal (l : PyFloatLit) : ℚ :=
  (if l.neg then (-1 : ℚ) else 1)
    * ((l.intPart : ℚ) + (l.fracPart : ℚ) / (10 : ℚ) ^ l.fracLen)
    * qpow10 l.exp

/-- Numeric value of a list of decimal digit characters. -/
def digitsToNat (ds : List Char) : Nat :=
  ds.foldl (fun a c => a * 10 + (c.toNat - 48)) 0

/-- Parse an unsigned decimal mantissa (`digits`, `digits.digits`,
`digits.` or `.digits`) from the front of a character list, returning
integer part, fractional digits value, fractional digit count, and the
unconsumed rest. -/
def parseMantissa (cs : List Char) : Option (Nat × Nat × Nat × List Char) :=
  let intPart := cs.takeWhile Char.isDigit
  let r1 := cs.dropWhile Char.isDigit
  match r1 with
  | '.' :: r2 =>
      let fracPart := r2.takeWhile Char.isDigit
      let r3 := r2.dropWhile Char.isDigit
      if intPart.isEmpty && fracPart.isEmpty then none
      else some (digitsToNat intPart, digitsToNat fracPart, fracPart.length, r3)
  | _ =>
      if intPart.isEmpty then none
      else some (digitsToNat intPart, 0, 0, r1)

/-- Parse an optional exponent part (`e`/`E`, optional sign, digits).
No exponent marker consumes nothing; a marker not followed by at least
one digit is a parse error. -/
def parseExponent (cs : List Char) : Option (Int × List Char) :=
  match cs with
  | c :: r =>
      if c = 'e' || c = 'E' then
        let (sgn, r1) : Int × List Char :=
          match r with
          | '+' :: r2 => (1, r2)
          | '-' :: r2 => (-1, r2)
          | _ => (1, r)
        let ds := r1.takeWhile Char.isDigit
        let r2 := r1.dropWhile Char.isDigit
        if ds.isEmpty then none
        else some (sgn * (digitsToNat ds : Int), r2)
      else some (0, cs)
  | [] => some (0, [])

/-- String stage of the Python `float(s)` model: `some` structured
literal on success, `none` where Python raises `ValueError`. -/
def pyFloatParse? (s : String) : Option PyFloatLit :=
  let cs := s.toList.dropWhile Char.isWhitespace
  let (neg, cs1) : Bool × List Char :=
    match cs with
    | '+' :: r => (false, r)
    | '-' :: r => (true, r)
    | _ => (false, cs)
  match parseMantissa cs1 with
  | none => none
  | some (ip, fp, fl, r1) =>
      match parseExponent r1 with
      | none => none
      | some (e, r2) =>
          if r2.all Char.isWhitespace then some ⟨neg, ip, fp, fl, e⟩ else none

/-- Model of Python `float(s)`: `some` rational value on success, `none`
where Python raises `ValueError`. -/
def pyFloat? (s : String) : Option ℚ :=
  (pyFloatParse? s).map litVal

/-! ## Model of Python string helpers used by the source -/

/-- Python `str.split()` (no arguments): split on runs of whitespace,
discarding empty fields. -/
def pySplitAux : List Char → List Char → List (List Char)
  | [], acc => if acc.isEmpty then [] else [acc.reverse]
  | c :: cs, acc =>
      if c.isWhitespace then
        if acc.isEmpty then pySplitAux cs [] else acc.reverse :: pySplitAux cs []
      else pySplitAux cs (c :: acc)

/-- Python `str.split()` on a `String`. -/
def pySplit (s : String) : List String :=
  (pySplitAux s.toList []).map List.asString

/-- Python `str.replace(',', '.')`. -/
def replaceComma (s : String) : String :=
  (s.toList.map (fun c => if c = ',' then '.' else c)).asString

/-- Python `str.lower()` restricted to ASCII, which covers everything
the source compares against (`'mm'`, `'cm'`, `'m'`). -/
def pyLower (s : String) : String :=
  (s.toList.map Char.toLower).asString

/-! ## `ifc_utils.parse_thickness`

Embedding of `parse_thickness` from `src/ifc_utils.py`.  The body of the
Python `try:` block is `parse_thickness_core`, with `none` modelling a
raised `ValueError`/`IndexError`; the wrapper adds the empty-string
guard and the `except` fallback of `0.01`. -/

/-- The `try:` block of `parse_thickness`: split the text, take the
first token as the numeric part (decimal comma accepted), the second
token (default `"mm"`) as the unit, and convert to meters.  `none`
models a raised `ValueError` (bad float) or `IndexError` (no tokens). -/
def parse_thickness_core (quantity_text : String) : Option ℚ :=
  match pySplit quantity_text with
  | [] => none
  | p0 :: rest =>
      let numeric_part := replaceComma p0
      let unit_part := match rest with | u :: _ => u | [] => "mm"
      (pyFloat? numeric_part).map (fun v =>
        if pyLower unit_part = "mm" then v / 1000
        else if pyLower unit_part = "cm" then v / 100
        else if pyLower unit_part = "m" then v
        else v / 1000)

/-- `parse_thickness` from `src/ifc_utils.py`: thickness in meters, with
the documented default `0.01` for empty input or any parse failure. -/
def parse_thickness (quantity_text : String) : ℚ :=
  if quantity_text = "" then 1 / 100
  else (parse_thickness_core quantity_text).getD (1 / 100)

/-! ## XML cross-referencer: `ELCAComponentExtractor._extract_layer_data_from_xml`

Embedding of `_extract_layer_data_from_xml` from `src/elca_parser.py`.
The XML document is modelled at the granularity the method reads it:
an `XmlElement` is one namespaced `element` node (with the attributes
the code reads, its `elementInfo` child, and all of its `component`
descendants in document order, as produced by `iter()`); attribute
lookups yield `Option String` (`none` is Python's `None` for an absent
attribute). -/

/-- Truthiness of an optional string attribute (Python `if x:` for a
value that is `None` or a `str`). -/
def optTruthy : Option String → Bool
  | some s => s ≠ ""
  | none => false

/-- Python f-string rendering of an optional string (absent attributes
render as the string `"None"`). -/
def optStr : Option String → String
  | some s => s
  | none => "None"

/-- One namespaced `component` node: the attributes the code reads
(the field `layerAreaRatio_` models the `layerAreaRatio` attribute). -/
structure XmlComponent where
  uuid : Option String
  isLayer : Option String
  layerSize : Option String
  layerPosition : Option String
  layerAreaRatio_ : Option String
  processConfigUuid : Option String
  processConfigName : Option String
  lifeTime : Option String
  lifeTimeDelay : Option String
  calcLca : Option String
  isExtant : Option String
  layerLength : Option String
  layerWidth : Option String
deriving Repr

/-- The `elementInfo` child: `name`/`description` text content (`none`
covers both a missing child node and a node with `None` text). -/
structure XmlElementInfo where
  name : Option String
  description : Option String
deriving Repr

/-- One namespaced `element` node as traversed by the code. -/
structure XmlElement where
  uuid : Option String
  din276Code : Option String
  quantity : Option String
  refUnit : Option String
  elementInfo : Option XmlElementInfo
  components : List XmlComponent
deriving Repr

/-- One value of the `xml_layer_data` dictionary: the fields stored by
`_extract_layer_data_from_xml`. -/
structure XmlLayerEntry where
  element_uuid : String
  element_name : String
  element_description : String
  element_din276 : Option String
  element_quantity : Option String
  element_ref_unit : Option String
  component_name : Option String
  layer_thickness : ℚ
  component_uuid : Option String
  is_layer : Option String
  process_config_uuid : Option String
  process_config_name : Option String
  life_time : Option String
  life_time_delay : Option String
  calc_lca : Option String
  is_extant : Option String
  layer_position : Option String
  layer_ratio_ : Option String
  layer_length : Option String
  layer_width : Option String
deriving Repr

/-- The `xml_layer_data` dict, modelled as the chronological list of
key/value assignments; lookup takes the latest binding, which is
exactly Python's overwrite-on-assignment semantics. -/
abbrev XmlLayerData : Type := List (String × XmlLayerEntry)

/-- A dict assignment `m[k] = v`. -/
def dictInsert (m : XmlLayerData) (k : String) (v : XmlLayerEntry) : XmlLayerData :=
  (m : List (String × XmlLayerEntry)) ++ [(k, v)]

/-- Dict lookup: the latest assignment to `k` wins. -/
def dictGet? (m : XmlLayerData) (k : String) : Option XmlLayerEntry :=
  ((m : List (String × XmlLayerEntry)).reverse.find? (fun p => p.1 = k)).map Prod.snd

/-- `element_name`: text of `elementInfo/name`, stripped, if the child
exists and its text is truthy; otherwise the initial `""`. -/
def elementNameOf (e : XmlElement) : String :=
  match e.elementInfo with
  | some info =>
      match info.name with
      | some t => if t ≠ "" then t.trim else ""
      | none => ""
  | none => ""

/-- `element_description`: same extraction for `elementInfo/description`. -/
def elementDescOf (e : XmlElement) : String :=
  match e.elementInfo with
  | some info =>
      match info.description with
      | some t => if t ≠ "" then t.trim else ""
      | none => ""
  | none => ""

/-- `layer_key`: composite `"{element_uuid}_{component_uuid}"`, falling
back to `"{element_uuid}_{component_name}"` when the component uuid is
falsy (the name is rendered through the f-string, so an absent name
renders as `"None"`). -/
def componentKey (eUuid : String) (c : XmlComponent) : String :=
  if optTruthy c.uuid then eUuid ++ "_" ++ optStr c.uuid
  else eUuid ++ "_" ++ optStr c.processConfigName

/-- The dict value stored for one component (all fields of the source
dict literal). -/
def entryFor (eUuid eName eDesc : String) (din qty refUnit : Option String)
    (c : XmlComponent) (thickness : ℚ) : XmlLayerEntry :=
  { element_uuid := eUuid
    element_name := eName
    element_description := eDesc
    element_din276 := din
    element_quantity := qty
    element_ref_unit := refUnit
    component_name := c.processConfigName
    layer_thickness := thickness
    component_uuid := c.uuid
    is_layer := c.isLayer
    process_config_uuid := c.processConfigUuid
    process_config_name := c.processConfigName
    life_time := c.lifeTime
    life_time_delay := c.lifeTimeDelay
    calc_lca := c.calcLca
    is_extant := c.isExtant
    layer_position := c.layerPosition
    layer_ratio_ := c.layerAreaRatio_
    layer_length := c.layerLength
    layer_width := c.layerWidth }

/-- Processing of one `component` node inside an element: the thickness
is `float(layerSize) if layerSize else 0.0`; a `ValueError` from
`float` (modelled as `pyFloat? = none`) skips the component (no entry),
otherwise the entry is assigned under the composite key and, when the
component name is truthy, redundantly under the bare name. -/
def processComponent (eUuid eName eDesc : String) (din qty refUnit : Option String)
    (m : XmlLayerData) (c : XmlComponent) : XmlLayerData :=
  let sizeResult : Option ℚ :=
    if optTruthy c.layerSize then pyFloat? (optStr c.layerSize) else some 0
  match sizeResult with
  | none => m
  | some thickness =>
      let entry := entryFor eUuid eName eDesc din qty refUnit c thickness
      let m1 := dictInsert m (componentKey eUuid c) entry
      if optTruthy c.processConfigName then dictInsert m1 (optStr c.processConfigName) entry
      else m1

/-- Processing of one `element` node: elements with a falsy uuid are
skipped entirely; otherwise every `component` descendant is processed
in document order. -/
def processElement (m : XmlLayerData) (e : XmlElement) : XmlLayerData :=
  if optTruthy e.uuid then
    e.components.foldl
      (processComponent (optStr e.uuid) (elementNameOf e) (elementDescOf e)
        e.din276Code e.quantity e.refUnit) m
  else m

/-- `_extract_layer_data_from_xml`: fold over all `element` nodes of the
document (any depth, document order), starting from the empty dict. -/
def extract_layer_data_from_xml (elements : List XmlElement) : XmlLayerData :=
  elements.foldl processElement []

/-! ## Library script: `create_ifc_library` (`src/create_ifc_library.py`)

Embedding of the material-layer creation of `create_ifc_library`: for
each `element` node of its input XML, one `IfcMaterialLayer` is created
per `component` child, with the layer thickness obtained from the
component's `thickness` attribute (default `'0'`) by `float(...)/1000`,
defaulting to `0.0` on `ValueError`. -/

/-- A `component` child as read by `create_ifc_library`. -/
structure BkiComponent where
  id : Option String
  name : Option String
  thickness : Option String
deriving Repr

/-- An `element` node as read by `create_ifc_library`. -/
structure BkiElement where
  id : Option String
  name : Option String
  components : List BkiComponent
deriving Repr

/-- An `IfcMaterialLayer` entity as created by `create_ifc_library`
(the wrapped `IfcMaterial` is flattened into its name). -/
structure IfcMaterialLayer where
  material_name : String
  layer_thickness : ℚ
  name : String
deriving Repr

/-- The thickness conversion of `create_ifc_library`: the source text is
assumed to be millimeters and divided by 1000; `ValueError` yields 0.0. -/
def bki_thickness (thickness_text : String) : ℚ :=
  match pyFloat? thickness_text with
  | some v => v / 1000
  | none => 0

/-- The material layers created for one element, in component order
(`component.get('name', f'Component_{idx}')`,
`component.get('thickness', '0')`). -/
def buildMaterialLayers (e : BkiElement) : List IfcMaterialLayer :=
  e.components.enum.map (fun p =>
    let component_name := p.2.name.getD ("Component_" ++ toString p.1)
    { material_name := component_name
      layer_thickness := bki_thickness (p.2.thickness.getD "0")
      name := component_name })

/-! ## HTML scraper: `ELCAComponentExtractor.extract_bauteil_elements`

Embedding of `extract_bauteil_elements` from `src/elca_parser.py`.  The
parsed HTML is modelled at the granularity the CSS selectors read it: a
document is the list of `ul.category > li.section` nodes in document
order, each carrying its optional `h1` (with optional inner `span`),
its `ul.report-elements > li.section` nodes, and so on; every
`select_one` lookup is an `Option` field.  The `find_next("tr",
class_="details")` pairing of a component row with the following
details row is represented by the row's optional `detailsRow` field
(the document-order successor). -/

/-- One row of a `table.report-assets-details` body (its `td` texts,
in order, headline rows already excluded by the selector). -/
structure ProcessRow where
  cells : List String
deriving Repr, DecidableEq

/-- A `tr.details` row following a component row. -/
structure DetailsRow where
  processRows : List ProcessRow
deriving Repr, DecidableEq

/-- The `td.lastColumn` cell of a component row, with its optional
nested spans (`span.process-config-name`, `span.info-is-extant`,
`span.info-quantity span`, `span.info-life-time`). -/
structure LastColumn where
  processConfigName : Option String
  infoIsExtant : Option String
  infoQuantity : Option String
  infoLifeTime : Option String
deriving Repr, DecidableEq

/-- One `tr.component` row (`firstColumn` is the `td.firstColumn`
text if that cell exists). -/
structure ComponentRow where
  firstColumn : Option String
  lastColumn : Option LastColumn
  detailsRow : Option DetailsRow
deriving Repr, DecidableEq

/-- One `div.element-assets` block: optional `h3` category heading and
the `tr.component` rows in document order. -/
structure ComponentSection where
  h3 : Option String
  componentRows : List ComponentRow
deriving Repr, DecidableEq

/-- A `dt` node of the property definition list, paired with the text
of its `find_next("dd")` node when one exists. -/
structure DtNode where
  label : String
  dd : Option String
deriving Repr, DecidableEq

/-- An `a.page` anchor inside an assembly's `h2` title. -/
structure AnchorElem where
  text : String
  href : Option String
deriving Repr, DecidableEq

/-- An assembly's `h2` title element. -/
structure H2Elem where
  page : Option AnchorElem
deriving Repr, DecidableEq

/-- One `ul.report-elements > li.section` assembly section. -/
structure ElementSection where
  h2 : Option H2Elem
  dl : Option (List DtNode)
  componentSections : List ComponentSection
deriving Repr, DecidableEq

/-- A category's `h1` header: its full stripped text and the optional
inner `span` text. -/
structure H1Elem where
  text : String
  span : Option String
deriving Repr, DecidableEq

/-- One `ul.category > li.section` category section. -/
structure CategorySection where
  h1 : Option H1Elem
  elementSections : List ElementSection
deriving Repr, DecidableEq

/-- One lifecycle-process dict built from a process row (the source
keys are `lifecycle_phase`, `ratio`, `process_name`, `reference_value`,
`uuid`; the field `ratio_` models the `ratio` key). -/
structure ProcessData where
  lifecycle_phase : String
  ratio_ : String
  process_name : String
  reference_value : String
  uuid : String
deriving Repr, DecidableEq

/-- One component dict (`component_data`); Python dict keys that the
code only sets conditionally are `Option` fields, `none` meaning the
key is absent. -/
structure ComponentData where
  component_category : String
  number : Option String
  name : Option String
  status : Option String
  quantity : Option String
  lifetime : Option String
  lifecycle_processes : Option (List ProcessData)
deriving Repr, DecidableEq

/-- A `BauteilElement` record as built by the scraper (`properties` is
the chronological list of dict assignments). -/
structure BauteilElement where
  category_code : String
  category_name : String
  subcategory : Option String
  name : String
  url : String
  properties : List (String × String)
  components : List ComponentData
deriving Repr, DecidableEq

/-- Python `str.replace(pat, '')` on character lists: every occurrence
of `pat` is removed (an empty pattern leaves the list unchanged, as in
Python where replacing the empty string by the empty string is the
identity). -/
def listRemoveAll (pat : List Char) : List Char → List Char
  | [] => []
  | c :: cs =>
      if hcond : pat ≠ [] ∧ List.isPrefixOf pat (c :: cs) then
        listRemoveAll pat (List.drop pat.length (c :: cs))
      else c :: listRemoveAll pat cs
termination_by l => l.length
decreasing_by
  · simp only [List.length_drop, List.length_cons]
    have hp : 0 < pat.length := List.length_pos.mpr hcond.1
    omega
  · simp

/-- Python `str.replace(pat, '')` on strings. -/
def strRemoveAll (s pat : String) : String :=
  (listRemoveAll pat.toList s.toList).asString

/-- Python `str.rstrip(':')`: drop all trailing colons. -/
def rstripColon (s : String) : String :=
  ((s.toList.reverse.dropWhile (fun c => c = ':')).reverse).asString

/-- Python `str.split(' ', 1)`: split at the first space only (an input
with no space yields a one-element list). -/
def splitSpace1 (s : String) : List String :=
  let pre := s.toList.takeWhile (fun c => c ≠ ' ')
  match s.toList.dropWhile (fun c => c ≠ ' ') with
  | [] => [pre.asString]
  | _ :: post => [pre.asString, post.asString]

/-- A process row yields a dict only when it has at least 5 cells
(shorter rows are skipped silently); the first five cell texts become
the five fields. -/
def extractProcessRow (r : ProcessRow) : Option ProcessData :=
  match r.cells with
  | c0 :: c1 :: c2 :: c3 :: c4 :: _ => some ⟨c0, c1, c2, c3, c4⟩
  | _ => none

/-- Building one `component_data` dict from a component row: each
textual sub-field is set only when its span exists; the
`lifecycle_processes` key is set only when a details row was found and
it produced at least one process dict. -/
def extractComponentRow (component_category : String) (row : ComponentRow) : ComponentData :=
  let lifecycle : Option (List ProcessData) :=
    match row.detailsRow with
    | none => none
    | some d =>
        let ps := d.processRows.filterMap extractProcessRow
        if ps.isEmpty then none else some ps
  { component_category := component_category
    number := row.firstColumn
    name := row.lastColumn.bind LastColumn.processConfigName
    status := row.lastColumn.bind LastColumn.infoIsExtant
    quantity := row.lastColumn.bind LastColumn.infoQuantity
    lifetime := row.lastColumn.bind LastColumn.infoLifeTime
    lifecycle_processes := lifecycle }

/-- One `div.element-assets` block: the category label defaults to
`"Unknown"` when the `h3` is absent; every component row yields one
dict, in document order. -/
def extractComponentSection (cs : ComponentSection) : List ComponentData :=
  let component_category := cs.h3.getD "Unknown"
  cs.componentRows.map (extractComponentRow component_category)

/-- The property pairs from the definition list: each `dt` whose
`find_next("dd")` exists contributes `(label stripped of trailing
colons, dd text)`. -/
def extractProperties (dl : Option (List DtNode)) : List (String × String) :=
  match dl with
  | none => []
  | some dts => dts.filterMap (fun dt => dt.dd.map (fun v => (rstripColon dt.label, v)))

/-- One assembly section: requires the `h2` and its `a.page` anchor
(otherwise the section is skipped via `continue`); the anchor text is
the assembly name, its `href` (default `""`) the url. -/
def extractElementSection (category_code category_name : String)
    (subcategory : Option String) (es : ElementSection) : Option BauteilElement :=
  match es.h2 with
  | none => none
  | some h2e =>
      match h2e.page with
      | none => none
      | some a =>
          some { category_code := category_code
                 category_name := category_name
                 subcategory := subcategory
                 name := a.text
                 url := a.href.getD ""
                 properties := extractProperties es.dl
                 components := (es.componentSections.map extractComponentSection).flatten }

/-- The category text and subcategory from the `h1`: when a `span` is
present its text is the subcategory and is removed from the category
text, which is then stripped. -/
def categoryTextAndSub (h1e : H1Elem) : String × Option String :=
  match h1e.span with
  | some sp => ((strRemoveAll h1e.text sp).trim, some sp)
  | none => (h1e.text, none)

/-- One category section: requires the `h1` (otherwise skipped via
`continue`); the heading splits at the first space into code and name
(`category_parts[1] if len > 1 else category_text`); every assembly
section is then extracted, skipping the broken ones. -/
def extractCategorySection (cs : CategorySection) : List BauteilElement :=
  match cs.h1 with
  | none => []
  | some h1e =>
      let ts := categoryTextAndSub h1e
      let parts := splitSpace1 ts.1
      let category_code := match parts with | p :: _ => p | [] => ""
      let category_name := match parts with | _ :: n :: _ => n | _ => ts.1
      cs.elementSections.filterMap (extractElementSection category_code category_name ts.2)

/-- `extract_bauteil_elements`: all categories in document order, each
contributing its assemblies in document order. -/
def extract_bauteil_elements (doc : List CategorySection) : List BauteilElement :=
  (doc.map extractCategorySection).flatten

/-! ## Library Builder failure policy

Modelled from the spec: the Library Builder
`create_ifc_library_from_bauteil_elements` lives in the module
`ifc_library_creator`, which is not present under `src/` — only its
callers (`__init__.py`, `material_library_ui.py`) are.  Per spec §4.4
the builder iterates assemblies in input order; the body that creates
one assembly's entities can raise and is abstracted here as `buildOne`
(`Except.error` models a raised exception).  The failure policy is:
an exception while processing one assembly is caught and logged, that
assembly's association is absent from the output, and processing
continues; only the final write of the output file (abstracted as
`writeOk`) is fatal for the run. -/

/-- The association relation emitted for one successfully processed
assembly. -/
structure LibraryAssociation where
  assembly_name : String
deriving Repr, DecidableEq

/-- Modelled from the spec: per-assembly build loop of the Library
Builder with partial-success semantics, followed by the fatal output
write. -/
def create_ifc_library_from_bauteil_elements
    (assemblies : List BauteilElement)
    (buildOne : BauteilElement → Except String LibraryAssociation)
    (writeOk : Bool) : Except String (List LibraryAssociation) :=
  let assocs := assemblies.foldl
    (fun acc a =>
      match buildOne a with
      | Except.ok r => acc ++ [r]
      | Except.error _ => acc) []
  if writeOk then Except.ok assocs else Except.error "output write failed"

/-! ## Concrete instances used in the claim analyses -/

/-- A `component` node with a uuid and a name but no `layerSize`
attribute at all. -/
def componentNoSize : XmlComponent :=
  ⟨some "c1", none, none, none, none, none, some "Lehmputz",
   none, none, none, none, none, none⟩

/-- An `element` node containing only `componentNoSize`. -/
def elementNoSize : XmlElement :=
  ⟨some "e1", none, none, none, none, [componentNoSize]⟩

/-- A `component` node named "Stroh" with `layerSize` `"180"`. -/
def componentStroh : XmlComponent :=
  ⟨some "c3", none, some "180", none, none, none, some "Stroh",
   none, none, none, none, none, none⟩

/-- An earlier dict entry already stored under the bare name "Stroh"
(processed from a different element). -/
def entryEarlier : XmlLayerEntry :=
  entryFor "e0" "" "" none none none componentStroh 5

/-- A `component` child of the library script's XML with the negative
thickness attribute `"-5"`. -/
def bkiNegComponent : BkiComponent := ⟨some "c", some "Lehm", some "-5"⟩

/-- An `element` with only `bkiNegComponent`. -/
def bkiNegElement : BkiElement := ⟨some "E", some "Wand", [bkiNegComponent]⟩

/-- A `component` child with thickness attribute `"15"`. -/
def bkiPosComponent : BkiComponent := ⟨some "c", some "Lehm", some "15"⟩

/-- An `element` with only `bkiPosComponent`. -/
def bkiPosElement : BkiElement := ⟨some "E", some "Wand", [bkiPosComponent]⟩

/-- The single material layer built from `bkiPosElement`. -/
def bkiPosLayer : IfcMaterialLayer := ⟨"Lehm", bki_thickness "15", "Lehm"⟩

/-- A component row whose `td.lastColumn` exists but has no
`span.info-quantity span`. -/
def rowNoQty : ComponentRow := ⟨some "1", some ⟨some "Lehmputz", none, none, none⟩, none⟩

/-- A well-formed assembly anchor. -/
def goodAnchor : AnchorElem := ⟨"Strohballen - Holz", some "https://example/"⟩

/-- A well-formed assembly section. -/
def goodEs : ElementSection := ⟨some ⟨some goodAnchor⟩, none, []⟩

/-- An assembly section with no `h2` title at all. -/
def badEsNoH2 : ElementSection := ⟨none, none, []⟩

/-- A well-formed category section with one assembly. -/
def goodCat : CategorySection := ⟨some ⟨"331 Tragende Außenwände", none⟩, [goodEs]⟩

/-- A category section whose `h1` header is missing. -/
def badCatNoH1 : CategorySection := ⟨none, [goodEs]⟩

/-! # Theorems settling the claims -/

/-- Helper: the second projection of an `enumFrom` member is a member
of the underlying list. -/
theorem snd_mem_of_mem_enumFrom {α : Type _} {p : Nat × α} :
    ∀ {n : Nat} {xs : List α}, p ∈ xs.enumFrom n → p.2 ∈ xs := by
  intro n xs
  induction xs generalizing n with
  | nil => intro h; cases h
  | cons x xs ih =>
      intro h
      rcases List.mem_cons.mp h with h | h
      · rw [h]; exact List.mem_cons_self _ _
      · exact List.mem_cons_of_mem _ (ih h)

/-- C1: the Library Builder's text-thickness parser maps "200,00 mm"
to 0.2 meters, "5 cm" to 0.05, the unrecognized unit "5 xyz" to 0.005
(treated as mm), and the unparseable "abc" to the default 0.01. -/
theorem C1_parse_thickness_round_trip :
    parse_thickness "200,00 mm" = 1 / 5 ∧
    parse_thickness "5 cm" = 1 / 20 ∧
    parse_thickness "5 xyz" = 1 / 200 ∧
    parse_thickness "abc" = 1 / 100 := by
  refine ⟨?_, ?_, ?_, rfl⟩
  · have h : parse_thickness "200,00 mm" = litVal ⟨false, 200, 0, 2, 0⟩ / 1000 := rfl
    rw [h]; norm_num [litVal, qpow10]
  · have h : parse_thickness "5 cm" = litVal ⟨false, 5, 0, 0, 0⟩ / 100 := rfl
    rw [h]; norm_num [litVal, qpow10]
  · have h : parse_thickness "5 xyz" = litVal ⟨false, 5, 0, 0, 0⟩ / 1000 := rfl
    rw [h]; norm_num [litVal, qpow10]

/-- C9: the text-thickness parser is total — every input string yields
a value, and whenever the parse body fails (the `try:` block raises),
the result is the documented fallback 0.01. -/
theorem C9_parse_thickness_total (s : String) :
    (∃ v : ℚ, parse_thickness s = v) ∧
    (parse_thickness_core s = none → parse_thickness s = 1 / 100) := by
  refine ⟨⟨parse_thickness s, rfl⟩, fun h => ?_⟩
  unfold parse_thickness
  split
  · rfl
  · rw [h]; rfl

/-- C9 witness: on the whitespace-only input `" "` the parse body
fails and the parser returns 0.01. -/
theorem C9_witness :
    parse_thickness_core " " = none ∧ parse_thickness " " = 1 / 100 :=
  ⟨rfl, (C9_parse_thickness_total " ").2 rfl⟩

/-- C2 counterexample: a component whose `layerSize` attribute is
absent is NOT skipped — the cross-referencer still creates an
`XmlLayerEntry` for it (two dict assignments, thickness defaulted to
0.0), refuting the claim's "absent/empty attribute" case. -/
theorem C2_counterexample_absent_size_creates_entry :
    (extract_layer_data_from_xml [elementNoSize]).length = 2 ∧
    (dictGet? (extract_layer_data_from_xml [elementNoSize]) "e1_c1").map
      XmlLayerEntry.layer_thickness = some 0 :=
  ⟨rfl, rfl⟩

/-- C2 (amended): a component whose `layerSize` attribute is present
and non-empty but not a valid floating-point token gets no
`XmlLayerEntry` — processing its element is the same as processing the
element with that component removed; absent/empty `layerSize` is
instead defaulted to 0.0 (see the C10 theorem). -/
theorem C2_amended_invalid_size_skipped
    (m : XmlLayerData) (e : XmlElement) (c : XmlComponent)
    (l1 l2 : List XmlComponent) (hsplit : e.components = l1 ++ c :: l2)
    (s : String) (hs : c.layerSize = some s) (hne : s ≠ "")
    (hbad : pyFloat? s = none) :
    processElement m e =
      processElement m { e with components := l1 ++ l2 } := by
  have hskip : ∀ (eU eN eD : String) (din qty refU : Option String) (m' : XmlLayerData),
      processComponent eU eN eD din qty refU m' c = m' := by
    intro eU eN eD din qty refU m'
    simp [processComponent, hs, optTruthy, optStr, hne, hbad]
  unfold processElement
  by_cases htr : optTruthy e.uuid
  · simp only [htr, if_true]
    rw [hsplit]
    rw [List.foldl_append, List.foldl_append, List.foldl_cons, hskip]
    rfl
  · simp [htr]

/-- C2 amended-claim witness: with `layerSize` `"N/A"` the component is
skipped and the element contributes nothing. -/
theorem C2_amended_witness :
    processElement []
        (⟨some "e1", none, none, none, none,
          [⟨some "c2", none, some "N/A", none, none, none, some "Stroh",
            none, none, none, none, none, none⟩]⟩ : XmlElement) =
      processElement [] { (⟨some "e1", none, none, none, none,
          [⟨some "c2", none, some "N/A", none, none, none, some "Stroh",
            none, none, none, none, none, none⟩]⟩ : XmlElement) with
          components := ([] : List XmlComponent) ++ [] } :=
  C2_amended_invalid_size_skipped [] _ _ [] [] rfl "N/A" rfl (by decide) rfl

/-- C10: a component whose `layerSize` is absent or empty is not
skipped — an entry with `layer_thickness` 0.0 is created, stored under
the composite key and also registered under its bare component name. -/
theorem C10_absent_or_empty_size_defaults_to_zero
    (eUuid eName eDesc : String) (din qty refUnit : Option String)
    (m : XmlLayerData) (c : XmlComponent) (u n : String)
    (hsize : c.layerSize = none ∨ c.layerSize = some "")
    (huuid : c.uuid = some u) (hu : u ≠ "")
    (hname : c.processConfigName = some n) (hn : n ≠ "") :
    processComponent eUuid eName eDesc din qty refUnit m c =
      m ++ [(eUuid ++ "_" ++ u, entryFor eUuid eName eDesc din qty refUnit c 0),
            (n, entryFor eUuid eName eDesc din qty refUnit c 0)] ∧
    (entryFor eUuid eName eDesc din qty refUnit c 0).layer_thickness = 0 := by
  constructor
  · rcases hsize with h | h <;>
      simp [processComponent, h, optTruthy, optStr, huuid, hu, hname, hn,
            componentKey, dictInsert]
  · rfl

/-- C10 witness: the concrete no-`layerSize` component is stored with
thickness 0 under both its composite key and its bare name. -/
theorem C10_witness :
    processComponent "e1" "" "" none none none [] componentNoSize =
      [("e1" ++ "_" ++ "c1", entryFor "e1" "" "" none none none componentNoSize 0),
       ("Lehmputz", entryFor "e1" "" "" none none none componentNoSize 0)] ∧
    (entryFor "e1" "" "" none none none componentNoSize 0).layer_thickness = 0 := by
  have h := C10_absent_or_empty_size_defaults_to_zero "e1" "" "" none none none []
    componentNoSize "c1" "Lehmputz" (Or.inl rfl) rfl (by decide) rfl (by decide)
  exact ⟨h.1.trans (List.nil_append _), h.2⟩

/-- C8: a component with a truthy uuid and bare name and a valid
`layerSize` is stored under the composite key
`"{element_uuid}_{component_uuid}"` and redundantly under its bare
name; the bare-name assignment happens last, so a lookup by that name
afterwards returns this component's entry regardless of any earlier
binding of the same name in the dict (last write wins). -/
theorem C8_name_key_last_write_wins
    (eUuid eName eDesc : String) (din qty refUnit : Option String)
    (m : XmlLayerData) (c : XmlComponent) (u n s : String) (v : ℚ)
    (huuid : c.uuid = some u) (hu : u ≠ "")
    (hname : c.processConfigName = some n) (hn : n ≠ "")
    (hs : c.layerSize = some s) (hsne : s ≠ "") (hv : pyFloat? s = some v) :
    ∃ entry : XmlLayerEntry,
      processComponent eUuid eName eDesc din qty refUnit m c =
        m ++ [(eUuid ++ "_" ++ u, entry), (n, entry)] ∧
      dictGet? (processComponent eUuid eName eDesc din qty refUnit m c) n = some entry ∧
      entry.component_uuid = some u ∧ entry.layer_thickness = v := by
  refine ⟨entryFor eUuid eName eDesc din qty refUnit c v, ?_, ?_, huuid, rfl⟩
  · simp [processComponent, hs, optTruthy, optStr, hsne, hv, huuid, hu,
          hname, hn, componentKey, dictInsert]
  · have h1 : processComponent eUuid eName eDesc din qty refUnit m c =
        m ++ [(eUuid ++ "_" ++ u, entryFor eUuid eName eDesc din qty refUnit c v),
              (n, entryFor eUuid eName eDesc din qty refUnit c v)] := by
      simp [processComponent, hs, optTruthy, optStr, hsne, hv, huuid, hu,
            hname, hn, componentKey, dictInsert]
    rw [h1]
    simp [dictGet?, List.reverse_append]

/-- C8 witness: processing "Stroh" (uuid c3, layerSize 180) over a dict
that already binds "Stroh" makes a bare-name lookup return the new
entry. -/
theorem C8_witness :
    ∃ entry : XmlLayerEntry,
      processComponent "e1" "" "" none none none
          [("Stroh", entryEarlier)] componentStroh =
        [("Stroh", entryEarlier)] ++ [("e1" ++ "_" ++ "c3", entry), ("Stroh", entry)] ∧
      dictGet? (processComponent "e1" "" "" none none none
          [("Stroh", entryEarlier)] componentStroh) "Stroh" = some entry ∧
      entry.component_uuid = some "c3" ∧
      entry.layer_thickness = litVal ⟨false, 180, 0, 0, 0⟩ :=
  C8_name_key_last_write_wins "e1" "" "" none none none
    [("Stroh", entryEarlier)] componentStroh "c3" "Stroh" "180"
    (litVal ⟨false, 180, 0, 0, 0⟩) rfl (by decide) rfl (by decide) rfl (by decide) rfl

/-- C4 counterexample: the thickness attribute `"-5"` produces a
MaterialLayer whose thickness is the negative value -0.005, refuting
the claim that every thickness is non-negative for every possible
source text. -/
theorem C4_counterexample_negative_thickness :
    (buildMaterialLayers bkiNegElement).map IfcMaterialLayer.layer_thickness =
      [-(1 / 200)] ∧ ¬ (0 ≤ (-(1 / 200) : ℚ)) := by
  constructor
  · have h : (buildMaterialLayers bkiNegElement).map IfcMaterialLayer.layer_thickness
        = [litVal ⟨true, 5, 0, 0, 0⟩ / 1000] := rfl
    rw [h]; norm_num [litVal, qpow10]
  · norm_num

/-- C4 (amended): every MaterialLayer's thickness is the total
conversion `float(source)/1000` of its component's thickness text
(default `'0'`); a missing or unparseable source maps to 0.0, and the
thickness is non-negative whenever the source parses to a non-negative
value — but a source that parses to a negative value yields a negative
thickness (the code does not clamp). -/
theorem C4_amended_layer_thickness
    (e : BkiElement) (l : IfcMaterialLayer) (hl : l ∈ buildMaterialLayers e) :
    ∃ c ∈ e.components,
      l.layer_thickness = bki_thickness (c.thickness.getD "0") ∧
      (pyFloat? (c.thickness.getD "0") = none → l.layer_thickness = 0) ∧
      ∀ v : ℚ, pyFloat? (c.thickness.getD "0") = some v →
        l.layer_thickness = v / 1000 ∧ (0 ≤ v → 0 ≤ l.layer_thickness) := by
  unfold buildMaterialLayers at hl
  rcases List.mem_map.mp hl with ⟨p, hp, rfl⟩
  refine ⟨p.2, snd_mem_of_mem_enumFrom hp, rfl, ?_, ?_⟩
  · intro h
    simp [bki_thickness, h]
  · intro v hv
    have hres : bki_thickness (p.2.thickness.getD "0") = v / 1000 := by
      simp [bki_thickness, hv]
    refine ⟨hres, fun h0 => ?_⟩
    show (0 : ℚ) ≤ bki_thickness (p.2.thickness.getD "0")
    rw [hres]
    exact div_nonneg h0 (by norm_num)

/-- C4 amended-claim witness: the layer built from thickness text
`"15"` satisfies the amended property. -/
theorem C4_amended_witness :
    ∃ c ∈ bkiPosElement.components,
      bkiPosLayer.layer_thickness = bki_thickness (c.thickness.getD "0") ∧
      (pyFloat? (c.thickness.getD "0") = none → bkiPosLayer.layer_thickness = 0) ∧
      ∀ v : ℚ, pyFloat? (c.thickness.getD "0") = some v →
        bkiPosLayer.layer_thickness = v / 1000 ∧
          (0 ≤ v → 0 ≤ bkiPosLayer.layer_thickness) :=
  C4_amended_layer_thickness bkiPosElement bkiPosLayer
    (by rw [show buildMaterialLayers bkiPosElement = [bkiPosLayer] from rfl]
        exact List.mem_singleton.mpr rfl)

/-- Helper: the Library Builder's per-assembly fold collects exactly
the successful builds, in input order. -/
theorem foldl_buildOne_eq_filterMap
    (buildOne : BauteilElement → Except String LibraryAssociation) :
    ∀ (l : List BauteilElement) (acc : List LibraryAssociation),
      l.foldl (fun acc a =>
          match buildOne a with
          | Except.ok r => acc ++ [r]
          | Except.error _ => acc) acc =
        acc ++ l.filterMap (fun a => (buildOne a).toOption) := by
  intro l
  induction l with
  | nil => intro acc; simp
  | cons a l ih =>
      intro acc
      cases hb : buildOne a <;>
        simp [List.foldl_cons, List.filterMap_cons, hb, ih, Except.toOption]

/-- C3: in the Library Builder, an exception while processing one
assembly (modelled by `buildOne` returning `Except.error`) is caught,
that assembly's association is absent from the output, and processing
continues with the remaining assemblies — the successful run returns
exactly the successful builds in input order; only a failure of the
output write aborts the whole run with an error.  (The deciding code,
module `ifc_library_creator`, is not under `src/`; the builder is
modelled from the spec, §4.4.) -/
theorem C3_partial_success_semantics
    (assemblies : List BauteilElement)
    (buildOne : BauteilElement → Except String LibraryAssociation) :
    create_ifc_library_from_bauteil_elements assemblies buildOne true =
      Except.ok (assemblies.filterMap (fun a => (buildOne a).toOption)) ∧
    create_ifc_library_from_bauteil_elements assemblies buildOne false =
      Except.error "output write failed" := by
  constructor
  · unfold create_ifc_library_from_bauteil_elements
    rw [foldl_buildOne_eq_filterMap]
    simp
  · rfl

/-- C7: a component row lacking the quantity span yields a record with
the quantity key absent (`none`), which is distinct from a quantity
that is present but empty (`some ""`). -/
theorem C7_missing_quantity_key_absent (cat : String) (row : ComponentRow)
    (h : row.lastColumn.bind LastColumn.infoQuantity = none) :
    (extractComponentRow cat row).quantity = none ∧
    ∀ (row2 : ComponentRow) (lc2 : LastColumn),
      row2.lastColumn = some lc2 → lc2.infoQuantity = some "" →
        (extractComponentRow cat row2).quantity = some "" ∧
        (some "" ≠ (none : Option String)) := by
  refine ⟨?_, ?_⟩
  · simp [extractComponentRow, h]
  · intro row2 lc2 h2 hq
    exact ⟨by simp [extractComponentRow, h2, hq], by simp⟩

/-- C7 witness: the concrete row without a quantity span. -/
theorem C7_witness :
    (extractComponentRow "Unknown" rowNoQty).quantity = none ∧
    ∀ (row2 : ComponentRow) (lc2 : LastColumn),
      row2.lastColumn = some lc2 → lc2.infoQuantity = some "" →
        (extractComponentRow "Unknown" row2).quantity = some "" ∧
        (some "" ≠ (none : Option String)) :=
  C7_missing_quantity_key_absent "Unknown" rowNoQty rfl

/-- Helper: an assembly section without its `h2` title or without the
`a.page` anchor inside it extracts to nothing. -/
theorem extractElementSection_broken (code nm : String) (sub : Option String)
    (es : ElementSection)
    (h : es.h2 = none ∨ ∃ h2e, es.h2 = some h2e ∧ h2e.page = none) :
    extractElementSection code nm sub es = none := by
  rcases h with h | ⟨h2e, hh2, hp⟩
  · simp [extractElementSection, h]
  · simp [extractElementSection, hh2, hp]

/-- C5: the scraper (total by construction — every nested lookup is an
`Option`) skips exactly the broken item: a category without its `h1`
header contributes nothing while all other categories are still
extracted, and an assembly section without its `h2` title or page
anchor contributes nothing while all other assemblies of its category
are still extracted. -/
theorem C5_broken_anchors_skip_only_that_item
    (doc1 doc2 : List CategorySection) (badCat : CategorySection)
    (hcat : badCat.h1 = none)
    (cs : CategorySection) (es1 es2 : List ElementSection) (badEs : ElementSection)
    (hes : badEs.h2 = none ∨ ∃ h2e, badEs.h2 = some h2e ∧ h2e.page = none) :
    extract_bauteil_elements (doc1 ++ badCat :: doc2) =
      extract_bauteil_elements (doc1 ++ doc2) ∧
    extractCategorySection { cs with elementSections := es1 ++ badEs :: es2 } =
      extractCategorySection { cs with elementSections := es1 ++ es2 } := by
  constructor
  · unfold extract_bauteil_elements
    simp [List.map_append, extractCategorySection, hcat]
  · obtain ⟨h1opt, ess⟩ := cs
    cases h1opt with
    | none => rfl
    | some h1e =>
        show (es1 ++ badEs :: es2).filterMap _ = (es1 ++ es2).filterMap _
        rw [List.filterMap_append, List.filterMap_append, List.filterMap_cons,
            extractElementSection_broken _ _ _ _ hes]

/-- C5 witness: a document with one broken category beside a good one,
and a category with one broken assembly beside a good one. -/
theorem C5_witness :
    extract_bauteil_elements ([goodCat] ++ badCatNoH1 :: []) =
      extract_bauteil_elements ([goodCat] ++ []) ∧
    extractCategorySection
        { goodCat with elementSections := [goodEs] ++ badEsNoH2 :: [] } =
      extractCategorySection { goodCat with elementSections := [goodEs] ++ [] } :=
  C5_broken_anchors_skip_only_that_item [goodCat] [] badCatNoH1 rfl
    goodCat [goodEs] [] badEsNoH2 (Or.inl rfl)

/-- Helper: over assembly sections that all have their `h2` and `a.page`
anchors, extraction keeps every section, in order, with the anchor text
as name and the document-order component extraction. -/
theorem filterMap_extractElementSection_props
    (code nm : String) (sub : Option String) :
    ∀ l : List ElementSection,
      (∀ es ∈ l, (es.h2.bind H2Elem.page).isSome) →
      ((l.filterMap (extractElementSection code nm sub)).length = l.length ∧
       (l.filterMap (extractElementSection code nm sub)).map (fun b => some b.name) =
         l.map (fun es => (es.h2.bind H2Elem.page).map AnchorElem.text) ∧
       (l.filterMap (extractElementSection code nm sub)).map BauteilElement.components =
         l.map (fun es => (es.componentSections.map extractComponentSection).flatten)) := by
  intro l
  induction l with
  | nil => intro _; simp
  | cons es l ih =>
      intro h
      have hhd := h es (List.mem_cons_self _ _)
      obtain ⟨h2e, hh2⟩ : ∃ h2e, es.h2 = some h2e := by
        cases hx : es.h2
        · rw [hx] at hhd; simp at hhd
        · exact ⟨_, rfl⟩
      rw [hh2] at hhd
      simp only [Option.some_bind] at hhd
      obtain ⟨a, hpage⟩ := Option.isSome_iff_exists.mp hhd
      have htl := ih (fun e he => h e (List.mem_cons_of_mem _ he))
      have hex : extractElementSection code nm sub es = some
          { category_code := code, category_name := nm, subcategory := sub,
            name := a.text, url := a.href.getD "",
            properties := extractProperties es.dl,
            components := (es.componentSections.map extractComponentSection).flatten } := by
        simp [extractElementSection, hh2, hpage]
      simp only [List.filterMap_cons, hex, List.map_cons, List.length_cons]
      refine ⟨by rw [htl.1], ?_, by rw [htl.2.2]⟩
      rw [htl.2.1, hh2]
      simp [hpage]

/-- Helper: a category whose `h1` is present and whose assembly
sections are all well-anchored extracts one record per section, in
document order. -/
theorem extractCategorySection_props (cs : CategorySection)
    (h1s : cs.h1.isSome)
    (hsec : ∀ es ∈ cs.elementSections, (es.h2.bind H2Elem.page).isSome) :
    (extractCategorySection cs).length = cs.elementSections.length ∧
    (extractCategorySection cs).map (fun b => some b.name) =
      cs.elementSections.map (fun es => (es.h2.bind H2Elem.page).map AnchorElem.text) ∧
    (extractCategorySection cs).map BauteilElement.components =
      cs.elementSections.map
        (fun es => (es.componentSections.map extractComponentSection).flatten) := by
  obtain ⟨h1opt, ess⟩ := cs
  cases h1opt with
  | none => simp at h1s
  | some h1e =>
      exact filterMap_extractElementSection_props _ _ _ ess hsec

/-- C6: for a valid document (every category has its `h1`, every
assembly section its `h2` with `a.page` anchor), the scraper returns
exactly one record per assembly section present, in document order:
the record count equals the section count, the record names follow the
anchors in document order, and each record's components are the
document-order extraction of its section's component blocks (component
rows and their lifecycle-process rows are mapped in document order by
construction of `extractComponentSection`). -/
theorem C6_one_record_per_section_in_document_order
    (doc : List CategorySection)
    (hcats : ∀ cs ∈ doc, cs.h1.isSome)
    (hsecs : ∀ cs ∈ doc, ∀ es ∈ cs.elementSections, (es.h2.bind H2Elem.page).isSome) :
    (extract_bauteil_elements doc).length =
      ((doc.map CategorySection.elementSections).flatten).length ∧
    (extract_bauteil_elements doc).map (fun b => some b.name) =
      ((doc.map CategorySection.elementSections).flatten).map
        (fun es => (es.h2.bind H2Elem.page).map AnchorElem.text) ∧
    (extract_bauteil_elements doc).map BauteilElement.components =
      ((doc.map CategorySection.elementSections).flatten).map
        (fun es => (es.componentSections.map extractComponentSection).flatten) := by
  induction doc with
  | nil => simp [extract_bauteil_elements]
  | cons cs doc ih =>
      have hcs := extractCategorySection_props cs (hcats cs (List.mem_cons_self _ _))
        (hsecs cs (List.mem_cons_self _ _))
      have htl := ih (fun c hc => hcats c (List.mem_cons_of_mem _ hc))
        (fun c hc es he => hsecs c (List.mem_cons_of_mem _ hc) es he)
      unfold extract_bauteil_elements at htl ⊢
      simp only [List.map_cons, List.flatten_cons, List.length_append, List.map_append]
      exact ⟨by rw [hcs.1, htl.1], by rw [hcs.2.1, htl.2.1], by rw [hcs.2.2, htl.2.2]⟩

/-- C6 witness: the one-category, one-assembly document. -/
theorem C6_witness :
    (extract_bauteil_elements [goodCat]).length =
      (([goodCat].map CategorySection.elementSections).flatten).length ∧
    (extract_bauteil_elements [goodCat]).map (fun b => some b.name) =
      (([goodCat].map CategorySection.elementSections).flatten).map
        (fun es => (es.h2.bind H2Elem.page).map AnchorElem.text) ∧
    (extract_bauteil_elements [goodCat]).map BauteilElement.components =
      (([goodCat].map CategorySection.elementSections).flatten).map
        (fun es => (es.componentSections.map extractComponentSection).flatten) :=
  C6_one_record_per_section_in_document_order [goodCat] (by decide) (by decide)

end ElcaBonsai
